import Mathlib

/-!
A shallow embedding of the TGMicroAtmosSim reaction engine.

The reactions and drivers are translated from `src/reactions.rs`.  The crate's
gas registry, mixture type, composition operator and constants module are not
part of the provided sources; they are modelled from the specification (§3,
§4.1, §4.2, §6), which treats every `C::*` constant as an injected numeric
input.  All numbers are modelled as exact rationals; the platform's float
transcendentals (`log10`, `sin`, `sqrt`, `powf`, `log`) are modelled as
injected functions on ℚ.
-/

/-- Modelled from the spec: the closed species registry of `gas.rs` (not under
src/), spec §3: `O2, N2, CO2, Pl, H2, H2O, N2O, NO2, BZ, ST, HNb, PlOx`. -/
inductive Gas where
  | O2 | N2 | CO2 | Pl | H2 | H2O | N2O | NO2 | BZ | ST | HNb | PlOx
deriving DecidableEq, Fintype

/-- The species in a fixed order, used for the Σ_s sums of spec §3. -/
def Gas.all : List Gas :=
  [.O2, .N2, .CO2, .Pl, .H2, .H2O, .N2O, .NO2, .BZ, .ST, .HNb, .PlOx]

/-- Modelled from the spec: the constants module (`crate::constants`, used as
`C::*` in reactions.rs) is not under src/.  Spec §4.3 and §6 treat every
capitalised constant as an injected numeric input whose literal value is a
game-tuning parameter outside the specification; the per-species specific heat
capacities and fusion-power weights of `gas.rs` (§3) are injected the same
way, and the float transcendental primitives are injected as functions. -/
structure Constants where
  heat_cap : Gas → ℚ
  fusion_weight : Gas → ℚ
  GAS_CONSTANT_R : ℚ
  MINIMUM_MOLE_COUNT : ℚ
  MINIMUM_HEAT_CAPACITY : ℚ
  N2O_DECOMPOSITION_MIN_ENERGY : ℚ
  N2O_DECOMPOSITION_ENERGY_RELEASED : ℚ
  PLASMA_MINIMUM_BURN_TEMPERATURE : ℚ
  PLASMA_TEMP_SCALE : ℚ
  PLASMA_BURN_RATE_DELTA : ℚ
  PLASMA_OXYGEN_FULLBURN : ℚ
  OXYGEN_BURN_RATE_BASE : ℚ
  SUPER_SATURATION_THRESHOLD : ℚ
  FIRE_PLASMA_ENERGY_RELEASED : ℚ
  TRITIUM_BURN_OXY_FACTOR : ℚ
  TRITIUM_BURN_TRIT_FACTOR : ℚ
  FIRE_HYDROGEN_ENERGY_RELEASED : ℚ
  FUSION_TRITIUM_MOLES_USED : ℚ
  FUSION_MOLE_THRESHOLD : ℚ
  FUSION_TEMPERATURE_THRESHOLD : ℚ
  FUSION_SCALE_DIVISOR : ℚ
  FUSION_MINIMAL_SCALE : ℚ
  TOROID_CALCULATED_THRESHOLD : ℚ
  FUSION_BASE_TEMPSCALE : ℚ
  FUSION_BUFFER_DIVISOR : ℚ
  FUSION_SLOPE_DIVISOR : ℚ
  INSTABILITY_GAS_POWER_FACTOR : ℚ
  FUSION_INSTABILITY_ENDOTHERMALITY : ℚ
  PLASMA_BINDING_ENERGY : ℚ
  FUSION_MIDDLE_ENERGY_REFERENCE : ℚ
  FUSION_ENERGY_TRANSLATION_EXPONENT : ℚ
  FUSION_TRITIUM_CONVERSION_COEFFICIENT : ℚ
  FIRE_MINIMUM_TEMPERATURE_TO_EXIST : ℚ
  NITRYL_FORMATION_ENERGY : ℚ
  ONE_ATMOSPHERE : ℚ
  FIRE_CARBON_ENERGY_RELEASED : ℚ
  STIMULUM_HEAT_SCALE : ℚ
  STIMULUM_FIRST_RISE : ℚ
  STIMULUM_FIRST_DROP : ℚ
  STIMULUM_SECOND_RISE : ℚ
  STIMULUM_ABSOLUTE_DROP : ℚ
  NOBLIUM_FORMATION_ENERGY : ℚ
  log10 : ℚ → ℚ
  sin : ℚ → ℚ
  sqrt : ℚ → ℚ
  rpow : ℚ → ℚ → ℚ
  logB : ℚ → ℚ → ℚ

/-- Modelled from the spec: `GasMixture` of `gas_mixture.rs` (not under src/),
spec §3: a gas vector (moles per species) plus volume and temperature. -/
structure GasMixture where
  gases : Gas → ℚ
  volume : ℚ
  temperature : ℚ

/-- Mixture equality is componentwise (spec §3: all mole entries, temperature
and volume compare equal), decidable since the species set is finite. -/
instance : DecidableEq GasMixture := fun a b =>
  decidable_of_iff
    (a.gases = b.gases ∧ a.volume = b.volume ∧ a.temperature = b.temperature)
    (by cases a; cases b; simp)

/-- Heat capacity `HC(m) = Σ_s gases[s] · C_s` (spec §3). -/
def GasMixture.heat_capacity (C : Constants) (gm : GasMixture) : ℚ :=
  (Gas.all.map fun s => gm.gases s * C.heat_cap s).sum

/-- Thermal energy `E(m) = HC(m) · temperature` (spec §3, `get_energy`). -/
def GasMixture.get_energy (C : Constants) (gm : GasMixture) : ℚ :=
  gm.heat_capacity C * gm.temperature

/-- Pressure `P(m) = (Σ_s gases[s]) · R · temperature / volume` (spec §3,
`get_pressure`). -/
def GasMixture.get_pressure (C : Constants) (gm : GasMixture) : ℚ :=
  (Gas.all.map fun s => gm.gases s).sum * C.GAS_CONSTANT_R * gm.temperature / gm.volume

/-- Fusion power `FP(m) = Σ_s gases[s] · w_s` (spec §3, `get_fusion_power`). -/
def GasMixture.get_fusion_power (C : Constants) (gm : GasMixture) : ℚ :=
  (Gas.all.map fun s => gm.gases s * C.fusion_weight s).sum

/-- A reaction delta: sparse per-species mole changes plus a scalar energy
release — the value built by the `gen_gas_mix_with_energy!` macro (spec §4.2,
"delta mixture with energy"). -/
structure GasMixtureWithEnergy where
  delta : Gas → ℚ
  energy : ℚ

/-- Modelled from the spec: the energy-preserving composition `m ⊕ (Δ, ΔE)` of
§4.2 — the `impl Add` used as `gm + gen_gas_mix_with_energy!(...)` in
reactions.rs (`gas_mixture.rs` is not under src/).  Moles are clamped at zero,
the temperature is recomputed as total energy over the new heat capacity, the
volume is unchanged. -/
def GasMixture.compose (C : Constants) (gm : GasMixture) (d : GasMixtureWithEnergy) :
    GasMixture :=
  let e0 := gm.get_energy C
  let merged : GasMixture :=
    { gases := fun s => max 0 (gm.gases s + d.delta s)
      volume := gm.volume
      temperature := 0 }
  let hc := merged.heat_capacity C
  { merged with temperature := if 0 < hc then (e0 + d.energy) / hc else 0 }

/-- Modelled from the spec: `adjust_thermal_energy` (§4.2 special composition,
`gas_mixture.rs` is not under src/): add `de` joules to the thermal energy and
clamp the resulting temperature at zero. -/
def GasMixture.adjust_thermal_energy (C : Constants) (gm : GasMixture) (de : ℚ) :
    GasMixture :=
  let hc := gm.heat_capacity C
  { gm with temperature := if 0 < hc then max 0 ((gm.get_energy C + de) / hc) else 0 }

/-- Spec §3 invariants on a well-formed mixture: nonnegative moles,
nonnegative temperature, positive volume. -/
def WellFormed (gm : GasMixture) : Prop :=
  (∀ s, 0 ≤ gm.gases s) ∧ 0 ≤ gm.temperature ∧ 0 < gm.volume

instance (gm : GasMixture) : Decidable (WellFormed gm) := by
  unfold WellFormed; infer_instance

/-- `atmos_mod` from reactions.rs: `lhs - rhs * (lhs / rhs).floor()`. -/
def atmos_mod (lhs rhs : ℚ) : ℚ := lhs - rhs * (⌊lhs / rhs⌋ : ℚ)

/-- `verify_hnob` from reactions.rs: chemistry runs only while `gm[HNb] < 5`. -/
def verify_hnob (gm : GasMixture) : Prop := gm.gases Gas.HNb < 5

instance (gm : GasMixture) : Decidable (verify_hnob gm) := by
  unfold verify_hnob; infer_instance

/-- Activation of N2O decomposition (the `reaction!` header: `N2O ≥
MINIMUM_MOLE_COUNT` and `t ≥ N2O_DECOMPOSITION_MIN_ENERGY` kelvin). -/
def n2o_decomp_active (C : Constants) (gm : GasMixture) : Prop :=
  C.MINIMUM_MOLE_COUNT ≤ gm.gases Gas.N2O ∧
    C.N2O_DECOMPOSITION_MIN_ENERGY ≤ gm.temperature

instance (C : Constants) (gm : GasMixture) : Decidable (n2o_decomp_active C gm) := by
  unfold n2o_decomp_active; infer_instance

/-- `n2o_decomp` from reactions.rs. -/
def n2o_decomp (C : Constants) (gm : GasMixture) : GasMixture :=
  if n2o_decomp_active C gm then
    let n2o := gm.gases Gas.N2O
    let t := gm.temperature
    let burned_fuel := max (2e-5 * (t - 1e-5 * t ^ 2)) 0 * n2o
    if burned_fuel ≤ 0 then gm
    else
      gm.compose C
        { delta := fun s =>
            match s with
            | Gas.N2O => -burned_fuel
            | Gas.O2 => burned_fuel / 2
            | Gas.N2 => burned_fuel
            | _ => 0
          energy := C.N2O_DECOMPOSITION_ENERGY_RELEASED * burned_fuel }
  else gm

/-- Activation of plasma fire. -/
def plasma_fire_active (C : Constants) (gm : GasMixture) : Prop :=
  C.MINIMUM_MOLE_COUNT ≤ gm.gases Gas.Pl ∧ C.MINIMUM_MOLE_COUNT ≤ gm.gases Gas.O2 ∧
    C.PLASMA_MINIMUM_BURN_TEMPERATURE ≤ gm.temperature

instance (C : Constants) (gm : GasMixture) : Decidable (plasma_fire_active C gm) := by
  unfold plasma_fire_active; infer_instance

/-- The saturation test of plasma fire: `o2 / pl > SUPER_SATURATION_THRESHOLD`. -/
def plasma_is_satured (C : Constants) (gm : GasMixture) : Prop :=
  C.SUPER_SATURATION_THRESHOLD < gm.gases Gas.O2 / gm.gases Gas.Pl

instance (C : Constants) (gm : GasMixture) : Decidable (plasma_is_satured C gm) := by
  unfold plasma_is_satured; infer_instance

/-- `plasma_fire` from reactions.rs. -/
def plasma_fire (C : Constants) (gm : GasMixture) : GasMixture :=
  if plasma_fire_active C gm then
    let pl := gm.gases Gas.Pl
    let o2 := gm.gases Gas.O2
    let t := gm.temperature
    let temp_scale := min ((t - C.PLASMA_MINIMUM_BURN_TEMPERATURE) / C.PLASMA_TEMP_SCALE) 1
    let plasma_burn_rate := pl * temp_scale / C.PLASMA_BURN_RATE_DELTA
    let plasma_burn_rate :=
      if pl * C.PLASMA_OXYGEN_FULLBURN < o2 then plasma_burn_rate
      else plasma_burn_rate / C.PLASMA_OXYGEN_FULLBURN
    let oxygen_burn_rate := C.OXYGEN_BURN_RATE_BASE - temp_scale
    let plasma_burn_rate := min (min pl plasma_burn_rate) (o2 / oxygen_burn_rate)
    let energy_release := plasma_burn_rate * C.FIRE_PLASMA_ENERGY_RELEASED
    gm.compose C
      { delta := fun s =>
          match s with
          | Gas.Pl => -plasma_burn_rate
          | Gas.O2 => -plasma_burn_rate * oxygen_burn_rate
          | Gas.H2 => if plasma_is_satured C gm then plasma_burn_rate else 0
          | Gas.CO2 => if plasma_is_satured C gm then 0 else plasma_burn_rate
          | _ => 0
        energy := energy_release }
  else gm

/-- Activation of tritium fire; `temperature!(100.0, C)` is 100 °C = 373.15 K. -/
def trit_fire_active (C : Constants) (gm : GasMixture) : Prop :=
  C.MINIMUM_MOLE_COUNT ≤ gm.gases Gas.H2 ∧ C.MINIMUM_MOLE_COUNT ≤ gm.gases Gas.O2 ∧
    373.15 ≤ gm.temperature

instance (C : Constants) (gm : GasMixture) : Decidable (trit_fire_active C gm) := by
  unfold trit_fire_active; infer_instance

/-- The `o2_no_combust` test of tritium fire:
`o2 < h2 || get_energy() < MINIMUM_HEAT_CAPACITY`. -/
def trit_o2_no_combust (C : Constants) (gm : GasMixture) : Prop :=
  gm.gases Gas.O2 < gm.gases Gas.H2 ∨ gm.get_energy C < C.MINIMUM_HEAT_CAPACITY

instance (C : Constants) (gm : GasMixture) : Decidable (trit_o2_no_combust C gm) := by
  unfold trit_o2_no_combust; infer_instance

/-- `trit_fire` from reactions.rs. -/
def trit_fire (C : Constants) (gm : GasMixture) : GasMixture :=
  if trit_fire_active C gm then
    let h2 := gm.gases Gas.H2
    let o2 := gm.gases Gas.O2
    let burned_fuel :=
      if trit_o2_no_combust C gm then o2 / C.TRITIUM_BURN_OXY_FACTOR else h2
    let primary_energy_release := C.FIRE_HYDROGEN_ENERGY_RELEASED * burned_fuel
    let extra_energy_release :=
      if trit_o2_no_combust C gm then 0
      else primary_energy_release * (C.TRITIUM_BURN_TRIT_FACTOR - 1)
    let energy_release := extra_energy_release + primary_energy_release
    gm.compose C
      { delta := fun s =>
          match s with
          | Gas.H2O => burned_fuel
          | Gas.H2 =>
            if trit_o2_no_combust C gm then -burned_fuel
            else -burned_fuel / C.TRITIUM_BURN_TRIT_FACTOR
          | Gas.O2 =>
            if trit_o2_no_combust C gm then 0
            else -h2 * (1 - 1 / C.TRITIUM_BURN_TRIT_FACTOR)
          | _ => 0
        energy := energy_release }
  else gm

/-- Activation of fusion. -/
def fusion_active (C : Constants) (gm : GasMixture) : Prop :=
  C.FUSION_TRITIUM_MOLES_USED ≤ gm.gases Gas.H2 ∧
    C.FUSION_MOLE_THRESHOLD ≤ gm.gases Gas.Pl ∧
    C.FUSION_MOLE_THRESHOLD ≤ gm.gases Gas.CO2 ∧
    C.FUSION_TEMPERATURE_THRESHOLD ≤ gm.temperature

instance (C : Constants) (gm : GasMixture) : Decidable (fusion_active C gm) := by
  unfold fusion_active; infer_instance

/-- Fusion: `scale_factor = (volume / FUSION_SCALE_DIVISOR).max(FUSION_MINIMAL_SCALE)`. -/
def fusion_scale_factor (C : Constants) (gm : GasMixture) : ℚ :=
  max (gm.volume / C.FUSION_SCALE_DIVISOR) C.FUSION_MINIMAL_SCALE

/-- Fusion: `temp_scale = temperature.log10()`. -/
def fusion_temp_scale (C : Constants) (gm : GasMixture) : ℚ :=
  C.log10 gm.temperature

/-- Fusion: `toroidal_size`. -/
def fusion_toroidal_size (C : Constants) (gm : GasMixture) : ℚ :=
  C.TOROID_CALCULATED_THRESHOLD +
    if fusion_temp_scale C gm ≤ C.FUSION_BASE_TEMPSCALE then
      (fusion_temp_scale C gm - C.FUSION_BASE_TEMPSCALE) / C.FUSION_BUFFER_DIVISOR
    else C.rpow 4 (fusion_temp_scale C gm - C.FUSION_BASE_TEMPSCALE) / C.FUSION_SLOPE_DIVISOR

/-- Fusion: `instability = atmos_mod(gas_power * INSTABILITY_GAS_POWER_FACTOR, toroidal_size)`. -/
def fusion_instability (C : Constants) (gm : GasMixture) : ℚ :=
  atmos_mod (gm.get_fusion_power C * C.INSTABILITY_GAS_POWER_FACTOR) (fusion_toroidal_size C gm)

/-- Fusion: `scaled_plasma`. -/
def fusion_scaled_plasma (C : Constants) (gm : GasMixture) : ℚ :=
  (gm.gases Gas.Pl - C.FUSION_MOLE_THRESHOLD) / fusion_scale_factor C gm

/-- Fusion: `scaled_carbon`. -/
def fusion_scaled_carbon (C : Constants) (gm : GasMixture) : ℚ :=
  (gm.gases Gas.CO2 - C.FUSION_MOLE_THRESHOLD) / fusion_scale_factor C gm

/-- Fusion: `plasma_mod = atmos_mod(scaled_plasma - instability * scaled_carbon.sin(), toroidal_size)`. -/
def fusion_plasma_mod (C : Constants) (gm : GasMixture) : ℚ :=
  atmos_mod (fusion_scaled_plasma C gm - fusion_instability C gm * C.sin (fusion_scaled_carbon C gm))
    (fusion_toroidal_size C gm)

/-- Fusion: `carbon_mod = atmos_mod(scaled_carbon - plasma_mod, toroidal_size)`. -/
def fusion_carbon_mod (C : Constants) (gm : GasMixture) : ℚ :=
  atmos_mod (fusion_scaled_carbon C gm - fusion_plasma_mod C gm) (fusion_toroidal_size C gm)

/-- Fusion: `new_pl = plasma_mod * scale_factor + FUSION_MOLE_THRESHOLD`. -/
def fusion_new_pl (C : Constants) (gm : GasMixture) : ℚ :=
  fusion_plasma_mod C gm * fusion_scale_factor C gm + C.FUSION_MOLE_THRESHOLD

/-- Fusion: `new_co2 = carbon_mod * scale_factor + FUSION_MOLE_THRESHOLD`. -/
def fusion_new_co2 (C : Constants) (gm : GasMixture) : ℚ :=
  fusion_carbon_mod C gm * fusion_scale_factor C gm + C.FUSION_MOLE_THRESHOLD

/-- Fusion: `delta_plasma = new_pl - pl`. -/
def fusion_delta_plasma (C : Constants) (gm : GasMixture) : ℚ :=
  fusion_new_pl C gm - gm.gases Gas.Pl

/-- Fusion: `delta_carbon = new_co2 - co2`. -/
def fusion_delta_carbon (C : Constants) (gm : GasMixture) : ℚ :=
  fusion_new_co2 C gm - gm.gases Gas.CO2

/-- Fusion: `active_plasma = (pl - new_pl).min(toroidal_size * scale_factor * 1.5)`. -/
def fusion_active_plasma (C : Constants) (gm : GasMixture) : ℚ :=
  min (gm.gases Gas.Pl - fusion_new_pl C gm)
    (fusion_toroidal_size C gm * fusion_scale_factor C gm * 1.5)

/-- Fusion: `reaction_energy`. -/
def fusion_reaction_energy (C : Constants) (gm : GasMixture) : ℚ :=
  if fusion_instability C gm ≤ C.FUSION_INSTABILITY_ENDOTHERMALITY ∨
      0 < fusion_active_plasma C gm then
    max (fusion_active_plasma C gm * C.PLASMA_BINDING_ENERGY) 0
  else
    fusion_active_plasma C gm * C.PLASMA_BINDING_ENERGY *
      C.sqrt (fusion_instability C gm - C.FUSION_INSTABILITY_ENDOTHERMALITY)

/-- Fusion: `middle_energy = alpha * beta` with
`alpha = FUSION_MOLE_THRESHOLD + TOROID_CALCULATED_THRESHOLD * scale_factor / 2` and
`beta = 200 * FUSION_MIDDLE_ENERGY_REFERENCE`. -/
def fusion_middle_energy (C : Constants) (gm : GasMixture) : ℚ :=
  (C.FUSION_MOLE_THRESHOLD + C.TOROID_CALCULATED_THRESHOLD * fusion_scale_factor C gm / 2) *
    (200 * C.FUSION_MIDDLE_ENERGY_REFERENCE)

/-- Fusion: `e_alpha = middle_energy * EXPONENT.powf((e / middle_energy).log10())`. -/
def fusion_e_alpha (C : Constants) (gm : GasMixture) : ℚ :=
  fusion_middle_energy C gm *
    C.rpow C.FUSION_ENERGY_TRANSLATION_EXPONENT
      (C.log10 (gm.get_energy C / fusion_middle_energy C gm))

/-- Fusion: `bowdlerized = reaction_energy.min(e_alpha * (k² - 1)).max(e_alpha * (k⁻² - 1))`. -/
def fusion_bowdlerized (C : Constants) (gm : GasMixture) : ℚ :=
  max
    (min (fusion_reaction_energy C gm)
      (fusion_e_alpha C gm * (C.FUSION_ENERGY_TRANSLATION_EXPONENT ^ 2 - 1)))
    (fusion_e_alpha C gm * (C.FUSION_ENERGY_TRANSLATION_EXPONENT ^ (-2 : ℤ) - 1))

/-- Fusion: the post-translation total energy `new_e`. -/
def fusion_new_e (C : Constants) (gm : GasMixture) : ℚ :=
  if fusion_reaction_energy C gm ≠ 0 then
    fusion_middle_energy C gm *
      C.rpow 10
        (C.logB ((fusion_e_alpha C gm + fusion_bowdlerized C gm) / fusion_middle_energy C gm)
          C.FUSION_ENERGY_TRANSLATION_EXPONENT)
  else gm.get_energy C

/-- Fusion: `released_energy = new_e - e`. -/
def fusion_released_energy (C : Constants) (gm : GasMixture) : ℚ :=
  fusion_new_e C gm - gm.get_energy C

/-- Fusion: `waste_out = scale_factor * CONVERSION_COEFFICIENT * TRITIUM_MOLES_USED`. -/
def fusion_waste_out (C : Constants) (gm : GasMixture) : ℚ :=
  fusion_scale_factor C gm * C.FUSION_TRITIUM_CONVERSION_COEFFICIENT *
    C.FUSION_TRITIUM_MOLES_USED

/-- Fusion: the `delta_mix` value built before the final branch. -/
def fusion_delta_mix (C : Constants) (gm : GasMixture) : GasMixtureWithEnergy :=
  { delta := fun s =>
      match s with
      | Gas.Pl => max (fusion_delta_plasma C gm) (-gm.gases Gas.Pl)
      | Gas.CO2 => max (fusion_delta_carbon C gm) (-gm.gases Gas.CO2)
      | Gas.H2 => -C.FUSION_TRITIUM_MOLES_USED
      | Gas.H2O => if 0 < fusion_active_plasma C gm then fusion_waste_out C gm else 0
      | Gas.BZ => if fusion_active_plasma C gm ≤ 0 then fusion_waste_out C gm else 0
      | Gas.O2 => fusion_waste_out C gm
      | _ => 0
    energy := fusion_released_energy C gm }

/-- `fusion` from reactions.rs: the delta is applied only when
`reaction_energy != 0.0 || instability <= FUSION_INSTABILITY_ENDOTHERMALITY`. -/
def fusion (C : Constants) (gm : GasMixture) : GasMixture :=
  if fusion_active C gm then
    if fusion_reaction_energy C gm ≠ 0 ∨
        fusion_instability C gm ≤ C.FUSION_INSTABILITY_ENDOTHERMALITY then
      gm.compose C (fusion_delta_mix C gm)
    else gm
  else gm

/-- Activation of nitryl formation. -/
def nitryl_formation_active (C : Constants) (gm : GasMixture) : Prop :=
  20 ≤ gm.gases Gas.N2 ∧ 20 ≤ gm.gases Gas.O2 ∧ 5 ≤ gm.gases Gas.PlOx ∧
    C.FIRE_MINIMUM_TEMPERATURE_TO_EXIST * 60 ≤ gm.temperature

instance (C : Constants) (gm : GasMixture) : Decidable (nitryl_formation_active C gm) := by
  unfold nitryl_formation_active; infer_instance

/-- `nitryl_formation` from reactions.rs: merges the mole delta, then expends
`energy_use` joules through `adjust_thermal_energy` (spec §4.2 special
composition) instead of the plain composition. -/
def nitryl_formation (C : Constants) (gm : GasMixture) : GasMixture :=
  if nitryl_formation_active C gm then
    let heat_eff :=
      min (min (gm.temperature / C.FIRE_MINIMUM_TEMPERATURE_TO_EXIST / 60) (gm.gases Gas.N2))
        (gm.gases Gas.O2)
    let energy_use := heat_eff * C.NITRYL_FORMATION_ENERGY
    let merged : GasMixture :=
      { gm with
          gases := fun s =>
            max 0 (gm.gases s +
              match s with
              | Gas.N2 => -heat_eff
              | Gas.O2 => -heat_eff
              | Gas.NO2 => 2 * heat_eff
              | _ => 0) }
    merged.adjust_thermal_energy C (-energy_use)
  else gm

/-- Activation of BZ synthesis (its minimum temperature is `f64::NEG_INFINITY`,
so there is no temperature conjunct). -/
def bz_synth_active (gm : GasMixture) : Prop :=
  10 ≤ gm.gases Gas.N2O ∧ 10 ≤ gm.gases Gas.Pl

instance (gm : GasMixture) : Decidable (bz_synth_active gm) := by
  unfold bz_synth_active; infer_instance

/-- BZ synthesis: `usage = efficiency.min(n2o).min(pl / 2.)` where
`efficiency = (half_atm_pressure * (pl / n2o).max(1.)).powi(-1)`. -/
def bz_usage (C : Constants) (gm : GasMixture) : ℚ :=
  let half_atm_pressure := 2 * gm.get_pressure C / C.ONE_ATMOSPHERE
  let efficiency := (half_atm_pressure * max (gm.gases Gas.Pl / gm.gases Gas.N2O) 1)⁻¹
  min (min efficiency (gm.gases Gas.N2O)) (gm.gases Gas.Pl / 2)

/-- BZ synthesis: `is_balanced = usage == n2o`. -/
def bz_is_balanced (C : Constants) (gm : GasMixture) : Prop :=
  bz_usage C gm = gm.gases Gas.N2O

instance (C : Constants) (gm : GasMixture) : Decidable (bz_is_balanced C gm) := by
  unfold bz_is_balanced; infer_instance

/-- `bz_synth` from reactions.rs. -/
def bz_synth (C : Constants) (gm : GasMixture) : GasMixture :=
  if bz_synth_active gm then
    let usage := bz_usage C gm
    let energy_release := 2 * usage * C.FIRE_CARBON_ENERGY_RELEASED
    let bz_prod := usage - max (gm.get_pressure C) 1
    gm.compose C
      { delta := fun s =>
          match s with
          | Gas.N2O => -usage
          | Gas.Pl => -2 * usage
          | Gas.BZ => if bz_is_balanced C gm then bz_prod else 0
          | Gas.O2 => if bz_is_balanced C gm then max (gm.get_pressure C) 1 else 0
          | _ => 0
        energy := energy_release }
  else gm

/-- Activation of stimulum synthesis (its `at(...)` clause is the raw value
`STIMULUM_HEAT_SCALE / 2.`). -/
def stimulum_synth_active (C : Constants) (gm : GasMixture) : Prop :=
  30 ≤ gm.gases Gas.H2 ∧ 10 ≤ gm.gases Gas.Pl ∧ 20 ≤ gm.gases Gas.BZ ∧
    30 ≤ gm.gases Gas.NO2 ∧ C.STIMULUM_HEAT_SCALE / 2 ≤ gm.temperature

instance (C : Constants) (gm : GasMixture) : Decidable (stimulum_synth_active C gm) := by
  unfold stimulum_synth_active; infer_instance

/-- The `COEFFS` array of stimulum synthesis:
`[1., STIMULUM_FIRST_RISE, -STIMULUM_FIRST_DROP, STIMULUM_SECOND_RISE, -STIMULUM_ABSOLUTE_DROP]`. -/
def stimulum_coeffs (C : Constants) : List ℚ :=
  [1, C.STIMULUM_FIRST_RISE, -C.STIMULUM_FIRST_DROP, C.STIMULUM_SECOND_RISE,
    -C.STIMULUM_ABSOLUTE_DROP]

/-- Stimulum synthesis: `heat_scale = (t / STIMULUM_HEAT_SCALE).min(pl).min(no2).min(h2)`. -/
def stimulum_heat_scale (C : Constants) (gm : GasMixture) : ℚ :=
  min (min (min (gm.temperature / C.STIMULUM_HEAT_SCALE) (gm.gases Gas.Pl)) (gm.gases Gas.NO2))
    (gm.gases Gas.H2)

/-- Stimulum synthesis: the energy delta
`(1..5).zip(COEFFS.iter()).map(|(i, c)| c * heat_scale.powi(i)).sum()` —
`(1..5)` is the four exponents 1,2,3,4 and `zip` truncates `COEFFS` to its
first four entries. -/
def stimulum_energy_delta (C : Constants) (gm : GasMixture) : ℚ :=
  (((List.range' 1 4).zip (stimulum_coeffs C)).map
      fun ic => ic.2 * stimulum_heat_scale C gm ^ ic.1).sum

/-- Stimulum synthesis: the composed delta mixture. -/
def stimulum_delta_mix (C : Constants) (gm : GasMixture) : GasMixtureWithEnergy :=
  { delta := fun s =>
      match s with
      | Gas.ST => stimulum_heat_scale C gm / 10
      | Gas.Pl => -stimulum_heat_scale C gm
      | Gas.NO2 => -stimulum_heat_scale C gm
      | Gas.H2 => -stimulum_heat_scale C gm
      | _ => 0
    energy := stimulum_energy_delta C gm }

/-- `stimulum_synth` from reactions.rs. -/
def stimulum_synth (C : Constants) (gm : GasMixture) : GasMixture :=
  if stimulum_synth_active C gm then gm.compose C (stimulum_delta_mix C gm)
  else gm

/-- Activation of hyper-noblium synthesis (raw `at(5e6)` kelvin). -/
def hnob_synth_active (gm : GasMixture) : Prop :=
  10 ≤ gm.gases Gas.N2 ∧ 5 ≤ gm.gases Gas.H2 ∧ 5000000 ≤ gm.temperature

instance (gm : GasMixture) : Decidable (hnob_synth_active gm) := by
  unfold hnob_synth_active; infer_instance

/-- HNb synthesis: `nob_formed = (0.01 * (n2 + h2)).min(h2 / 10.).min(n2 / 20.)`. -/
def hnob_nob_formed (gm : GasMixture) : ℚ :=
  min (min (0.01 * (gm.gases Gas.N2 + gm.gases Gas.H2)) (gm.gases Gas.H2 / 10))
    (gm.gases Gas.N2 / 20)

/-- `hnob_synth` from reactions.rs. -/
def hnob_synth (C : Constants) (gm : GasMixture) : GasMixture :=
  if hnob_synth_active gm then
    let nob_formed := hnob_nob_formed gm
    let energy_used := nob_formed * C.NOBLIUM_FORMATION_ENERGY / max (gm.gases Gas.BZ) 1
    gm.compose C
      { delta := fun s =>
          match s with
          | Gas.H2 => -10 * nob_formed
          | Gas.N2 => -20 * nob_formed
          | Gas.HNb => nob_formed
          | _ => 0
        energy := -energy_used }
  else gm

/-- `react_once` from reactions.rs: the HNb guard, then the fixed chain
`n2o_decomp => trit_fire => plasma_fire => fusion => nitryl_formation =>
bz_synth => stimulum_synth => hnob_synth`. -/
def react_once (C : Constants) (gm : GasMixture) : GasMixture :=
  if verify_hnob gm then
    hnob_synth C (stimulum_synth C (bz_synth C (nitryl_formation C (fusion C
      (plasma_fire C (trit_fire C (n2o_decomp C gm)))))))
  else gm

/-- `react_several` from reactions.rs: push `react_once` of the running
mixture, `times` times. -/
def react_several (C : Constants) : GasMixture → Nat → List GasMixture
  | _, 0 => []
  | gm, times + 1 => react_once C gm :: react_several C (react_once C gm) times

/-- `react_until_done` from reactions.rs iterates `react_once` until two
consecutive results compare equal; the Rust loop has no termination guarantee
(spec §4.4), so it is modelled with an explicit iteration bound, returning
`none` when the bound is exhausted before a fixed point is reached. -/
def react_until_done (C : Constants) : Nat → GasMixture → Option GasMixture
  | 0, _ => none
  | fuel + 1, gm =>
    if gm = react_once C gm then some (react_once C gm)
    else react_until_done C fuel (react_once C gm)

/-- The stimulum energy polynomial as the spec's sentence literally reads:
`ΔE = Σ_{i=1..4} c[i]·h^i`, pairing exponent `i` with coefficient `c[i]` (so
that `c[0] = 1` is the unused entry).  Written from the spec's words, for
comparison with `stimulum_energy_delta`, which is translated from the source. -/
def stimulum_energy_delta_claimed (C : Constants) (gm : GasMixture) : ℚ :=
  ((List.range' 1 4).map
      fun i => (stimulum_coeffs C).getD i 0 * stimulum_heat_scale C gm ^ i).sum

/-- A concrete constants instance for closed-form checks.  The spec leaves the
injected values free (§4.3: game-tuning parameters); these are arbitrary
admissible choices, with positive heat capacities as §3 requires. -/
def testC : Constants where
  heat_cap := fun _ => 1
  fusion_weight := fun _ => 0
  GAS_CONSTANT_R := 8
  MINIMUM_MOLE_COUNT := 0.01
  MINIMUM_HEAT_CAPACITY := 0.0003
  N2O_DECOMPOSITION_MIN_ENERGY := 1400
  N2O_DECOMPOSITION_ENERGY_RELEASED := 200000
  PLASMA_MINIMUM_BURN_TEMPERATURE := 373.15
  PLASMA_TEMP_SCALE := 1370
  PLASMA_BURN_RATE_DELTA := 9
  PLASMA_OXYGEN_FULLBURN := 10
  OXYGEN_BURN_RATE_BASE := 1.4
  SUPER_SATURATION_THRESHOLD := 96
  FIRE_PLASMA_ENERGY_RELEASED := 3000000
  TRITIUM_BURN_OXY_FACTOR := 100
  TRITIUM_BURN_TRIT_FACTOR := 10
  FIRE_HYDROGEN_ENERGY_RELEASED := 560000
  FUSION_TRITIUM_MOLES_USED := 1
  FUSION_MOLE_THRESHOLD := 250
  FUSION_TEMPERATURE_THRESHOLD := 10000
  FUSION_SCALE_DIVISOR := 1000
  FUSION_MINIMAL_SCALE := 50
  TOROID_CALCULATED_THRESHOLD := 5.96
  FUSION_BASE_TEMPSCALE := 6
  FUSION_BUFFER_DIVISOR := 100
  FUSION_SLOPE_DIVISOR := 1250
  INSTABILITY_GAS_POWER_FACTOR := 0.003
  FUSION_INSTABILITY_ENDOTHERMALITY := 2
  PLASMA_BINDING_ENERGY := 20000000
  FUSION_MIDDLE_ENERGY_REFERENCE := 1000000
  FUSION_ENERGY_TRANSLATION_EXPONENT := 1.25
  FUSION_TRITIUM_CONVERSION_COEFFICIENT := 1e-10
  FIRE_MINIMUM_TEMPERATURE_TO_EXIST := 373.15
  NITRYL_FORMATION_ENERGY := 100000
  ONE_ATMOSPHERE := 101.325
  FIRE_CARBON_ENERGY_RELEASED := 100000
  STIMULUM_HEAT_SCALE := 100000
  STIMULUM_FIRST_RISE := 0.65
  STIMULUM_FIRST_DROP := 0.065
  STIMULUM_SECOND_RISE := 0.0009
  STIMULUM_ABSOLUTE_DROP := 0.00000335
  NOBLIUM_FORMATION_ENERGY := 2000000000
  log10 := fun _ => 0
  sin := fun _ => 0
  sqrt := fun _ => 0
  rpow := fun _ _ => 0
  logB := fun _ _ => 0

/-- A quenched mixture: 6 mol of hyper-noblium. -/
def mQuench : GasMixture where
  gases := fun s =>
    match s with
    | Gas.HNb => 6
    | Gas.N2 => 50
    | _ => 0
  volume := 1000
  temperature := 300

/-- A hot nitrogen-tritium parcel: only hyper-noblium synthesis is active on
it under `testC`. -/
def mNoble : GasMixture where
  gases := fun s =>
    match s with
    | Gas.N2 => 10
    | Gas.H2 => 5
    | _ => 0
  volume := 1
  temperature := 5000000

/-- A parcel on which stimulum synthesis is active under `testC`, with
`heat_scale = 1`. -/
def mStim : GasMixture where
  gases := fun s =>
    match s with
    | Gas.H2 => 30
    | Gas.Pl => 10
    | Gas.BZ => 20
    | Gas.NO2 => 30
    | _ => 0
  volume := 1000
  temperature := 100000

/-- A parcel on which fusion is active under `testC`. -/
def mFus : GasMixture where
  gases := fun s =>
    match s with
    | Gas.H2 => 10
    | Gas.Pl => 300
    | Gas.CO2 => 300
    | _ => 0
  volume := 1000
  temperature := 20000

/-- An inactive reaction is the identity (spec §4.1): N2O decomposition. -/
theorem n2o_decomp_inactive (C : Constants) (gm : GasMixture) (h : ¬ n2o_decomp_active C gm) :
    n2o_decomp C gm = gm := if_neg h

/-- An inactive reaction is the identity (spec §4.1): tritium fire. -/
theorem trit_fire_inactive (C : Constants) (gm : GasMixture) (h : ¬ trit_fire_active C gm) :
    trit_fire C gm = gm := if_neg h

/-- An inactive reaction is the identity (spec §4.1): plasma fire. -/
theorem plasma_fire_inactive (C : Constants) (gm : GasMixture) (h : ¬ plasma_fire_active C gm) :
    plasma_fire C gm = gm := if_neg h

/-- An inactive reaction is the identity (spec §4.1): fusion. -/
theorem fusion_inactive (C : Constants) (gm : GasMixture) (h : ¬ fusion_active C gm) :
    fusion C gm = gm := if_neg h

/-- An inactive reaction is the identity (spec §4.1): nitryl formation. -/
theorem nitryl_formation_inactive (C : Constants) (gm : GasMixture)
    (h : ¬ nitryl_formation_active C gm) : nitryl_formation C gm = gm := if_neg h

/-- An inactive reaction is the identity (spec §4.1): BZ synthesis. -/
theorem bz_synth_inactive (C : Constants) (gm : GasMixture) (h : ¬ bz_synth_active gm) :
    bz_synth C gm = gm := if_neg h

/-- An inactive reaction is the identity (spec §4.1): stimulum synthesis. -/
theorem stimulum_synth_inactive (C : Constants) (gm : GasMixture)
    (h : ¬ stimulum_synth_active C gm) : stimulum_synth C gm = gm := if_neg h

/-- An inactive reaction is the identity (spec §4.1): hyper-noblium synthesis. -/
theorem hnob_synth_inactive (C : Constants) (gm : GasMixture) (h : ¬ hnob_synth_active gm) :
    hnob_synth C gm = gm := if_neg h

/-- The composition operator never touches the volume (spec §4.2 step 5). -/
theorem compose_volume (C : Constants) (gm : GasMixture) (d : GasMixtureWithEnergy) :
    (gm.compose C d).volume = gm.volume := rfl

/-- `adjust_thermal_energy` never touches the volume. -/
theorem adjust_thermal_energy_volume (C : Constants) (gm : GasMixture) (de : ℚ) :
    (gm.adjust_thermal_energy C de).volume = gm.volume := rfl

/-- N2O decomposition preserves the volume. -/
theorem n2o_decomp_volume (C : Constants) (gm : GasMixture) :
    (n2o_decomp C gm).volume = gm.volume := by
  simp only [n2o_decomp]; split
  · split <;> rfl
  · rfl

/-- Tritium fire preserves the volume. -/
theorem trit_fire_volume (C : Constants) (gm : GasMixture) :
    (trit_fire C gm).volume = gm.volume := by
  simp only [trit_fire]; split <;> rfl

/-- Plasma fire preserves the volume. -/
theorem plasma_fire_volume (C : Constants) (gm : GasMixture) :
    (plasma_fire C gm).volume = gm.volume := by
  simp only [plasma_fire]; split <;> rfl

/-- Fusion preserves the volume. -/
theorem fusion_volume (C : Constants) (gm : GasMixture) :
    (fusion C gm).volume = gm.volume := by
  simp only [fusion]; split
  · split <;> rfl
  · rfl

/-- Nitryl formation preserves the volume. -/
theorem nitryl_formation_volume (C : Constants) (gm : GasMixture) :
    (nitryl_formation C gm).volume = gm.volume := by
  simp only [nitryl_formation]; split <;> rfl

/-- BZ synthesis preserves the volume. -/
theorem bz_synth_volume (C : Constants) (gm : GasMixture) :
    (bz_synth C gm).volume = gm.volume := by
  simp only [bz_synth]; split <;> rfl

/-- Stimulum synthesis preserves the volume. -/
theorem stimulum_synth_volume (C : Constants) (gm : GasMixture) :
    (stimulum_synth C gm).volume = gm.volume := by
  simp only [stimulum_synth]; split <;> rfl

/-- Hyper-noblium synthesis preserves the volume. -/
theorem hnob_synth_volume (C : Constants) (gm : GasMixture) :
    (hnob_synth C gm).volume = gm.volume := by
  simp only [hnob_synth]; split <;> rfl

/-- C1: with at least 5 mol of hyper-noblium in the mixture all chemistry is
quenched — `react_once` returns the input unchanged, and `react_until_done`
(under any positive iteration bound) returns it as the fixed point. -/
theorem hnob_quench (C : Constants) (gm : GasMixture) (h : 5 ≤ gm.gases Gas.HNb) :
    react_once C gm = gm ∧
      ∀ fuel : Nat, 0 < fuel → react_until_done C fuel gm = some gm := by
  have hguard : ¬ verify_hnob gm := not_lt.mpr h
  have honce : react_once C gm = gm := by rw [react_once, if_neg hguard]
  refine ⟨honce, ?_⟩
  intro fuel hf
  cases fuel with
  | zero => exact absurd hf (lt_irrefl 0)
  | succ n => rw [react_until_done, honce, if_pos rfl]

/-- C1 witness: the quench theorem applied to the concrete mixture `mQuench`. -/
theorem hnob_quench_check :
    react_once testC mQuench = mQuench ∧
      react_until_done testC 3 mQuench = some mQuench := by
  have h := hnob_quench testC mQuench (by norm_num [mQuench])
  exact ⟨h.1, h.2 3 (by norm_num)⟩

/-- C2 counterexample: on an explicit constants instance and an explicit
mixture with stimulum synthesis active (heat scale h = 1), the energy delta
composed by the code, `Σ_{i=1..4} c[i-1]·h^i = 1.5859`, differs from the
claim's stated polynomial `Σ_{i=1..4} c[i]·h^i = 0.58589665`: the code pairs
exponent i with coefficient c[i-1], so c[0] = 1 multiplies h and the unused
entry is the last coefficient, not c[0]. -/
theorem stimulum_claimed_sum_refuted :
    stimulum_synth_active testC mStim ∧
      stimulum_energy_delta testC mStim ≠ stimulum_energy_delta_claimed testC mStim := by
  constructor
  · exact ⟨by norm_num [mStim], by norm_num [mStim], by norm_num [mStim],
      by norm_num [mStim], by norm_num [mStim, testC]⟩
  · have h1 : stimulum_energy_delta testC mStim = 1.5859 := by
      norm_num [stimulum_energy_delta, stimulum_coeffs, List.range', stimulum_heat_scale,
        mStim, testC, min_def]
    have h2 : stimulum_energy_delta_claimed testC mStim = 0.58589665 := by
      norm_num [stimulum_energy_delta_claimed, stimulum_coeffs, List.range',
        stimulum_heat_scale, mStim, testC, min_def]
    rw [h1, h2]; norm_num

/-- C2 (amended): when stimulum synthesis is active it composes the delta
carrying `stimulum_energy_delta`, and that energy equals
`Σ_{i=1..4} c[i-1]·h^i = h + STIMULUM_FIRST_RISE·h² − STIMULUM_FIRST_DROP·h³ +
STIMULUM_SECOND_RISE·h⁴` — exponent i is paired with coefficient c[i-1], and
the unused entry of the 5-element coefficient array is the last one
(−STIMULUM_ABSOLUTE_DROP), not the i = 0 entry 1. -/
theorem stimulum_energy_polynomial (C : Constants) (gm : GasMixture)
    (h : stimulum_synth_active C gm) :
    stimulum_synth C gm = gm.compose C (stimulum_delta_mix C gm) ∧
      stimulum_energy_delta C gm =
        stimulum_heat_scale C gm +
          C.STIMULUM_FIRST_RISE * stimulum_heat_scale C gm ^ 2 -
          C.STIMULUM_FIRST_DROP * stimulum_heat_scale C gm ^ 3 +
          C.STIMULUM_SECOND_RISE * stimulum_heat_scale C gm ^ 4 := by
  refine ⟨by rw [stimulum_synth, if_pos h], ?_⟩
  have hzip : (List.range' 1 4).zip (stimulum_coeffs C) =
      [(1, 1), (2, C.STIMULUM_FIRST_RISE), (3, -C.STIMULUM_FIRST_DROP),
        (4, C.STIMULUM_SECOND_RISE)] := rfl
  rw [stimulum_energy_delta, hzip]
  simp only [List.map_cons, List.map_nil, List.sum_cons, List.sum_nil]
  ring

/-- C2 witness: the amended polynomial identity at the concrete active
mixture `mStim`. -/
theorem stimulum_energy_polynomial_check :
    stimulum_synth testC mStim = mStim.compose testC (stimulum_delta_mix testC mStim) ∧
      stimulum_energy_delta testC mStim =
        stimulum_heat_scale testC mStim +
          testC.STIMULUM_FIRST_RISE * stimulum_heat_scale testC mStim ^ 2 -
          testC.STIMULUM_FIRST_DROP * stimulum_heat_scale testC mStim ^ 3 +
          testC.STIMULUM_SECOND_RISE * stimulum_heat_scale testC mStim ^ 4 :=
  stimulum_energy_polynomial testC mStim
    ⟨by norm_num [mStim], by norm_num [mStim], by norm_num [mStim],
      by norm_num [mStim], by norm_num [mStim, testC]⟩

/-- C3: below the hyper-noblium quench threshold, one tick is exactly the
fixed chain N2O decomposition, then tritium fire, then plasma fire, then
fusion, then nitryl formation, then BZ synthesis, then stimulum synthesis,
then HNb synthesis, each step receiving the prior step's output. -/
theorem react_once_chain_order (C : Constants) (gm : GasMixture) (h : gm.gases Gas.HNb < 5) :
    react_once C gm =
      hnob_synth C (stimulum_synth C (bz_synth C (nitryl_formation C (fusion C
        (plasma_fire C (trit_fire C (n2o_decomp C gm))))))) := by
  rw [react_once, if_pos (show verify_hnob gm from h)]

/-- C3 witness: the chain equation at the concrete mixture `mNoble`. -/
theorem react_once_chain_order_check :
    react_once testC mNoble =
      hnob_synth testC (stimulum_synth testC (bz_synth testC (nitryl_formation testC (fusion testC
        (plasma_fire testC (trit_fire testC (n2o_decomp testC mNoble))))))) :=
  react_once_chain_order testC mNoble (by norm_num [mNoble])

/-- C4 counterexample: a well-formed mixture and an admissible constants
instance (positive heat capacities, as spec §3 requires; the spec fixes no
constant values) on which `react_once` returns a strictly negative
temperature.  Only hyper-noblium synthesis fires on `mNoble`, and its
endothermic ΔE (3·10⁸ J) exceeds the parcel's thermal energy (7.5·10⁷ J); the
plain composition of spec §4.2 does not clamp the recomputed temperature. -/
theorem react_once_negative_temperature :
    WellFormed mNoble ∧ (react_once testC mNoble).temperature < 0 := by
  constructor
  · refine ⟨fun s => ?_, by norm_num [mNoble], by norm_num [mNoble]⟩
    cases s <;> norm_num [mNoble]
  · have hchain : react_once testC mNoble = hnob_synth testC mNoble := by
      rw [react_once, if_pos (by norm_num [verify_hnob, mNoble] : verify_hnob mNoble)]
      rw [n2o_decomp_inactive _ _ (by norm_num [n2o_decomp_active, mNoble, testC]),
        trit_fire_inactive _ _ (by norm_num [trit_fire_active, mNoble, testC]),
        plasma_fire_inactive _ _ (by norm_num [plasma_fire_active, mNoble, testC]),
        fusion_inactive _ _ (by norm_num [fusion_active, mNoble, testC]),
        nitryl_formation_inactive _ _ (by norm_num [nitryl_formation_active, mNoble, testC]),
        bz_synth_inactive _ _ (by norm_num [bz_synth_active, mNoble]),
        stimulum_synth_inactive _ _ (by norm_num [stimulum_synth_active, mNoble, testC])]
    have hact : hnob_synth_active mNoble :=
      ⟨by norm_num [mNoble], by norm_num [mNoble], by norm_num [mNoble]⟩
    rw [hchain, hnob_synth, if_pos hact]
    norm_num [GasMixture.compose, GasMixture.get_energy, GasMixture.heat_capacity, Gas.all,
      hnob_nob_formed, mNoble, testC, min_def, max_def]

/-- C4 (amended): the composition primitives cannot drive the temperature
below zero as long as the total energy they distribute is nonnegative — the
plain composition (spec §4.2) yields a nonnegative temperature whenever the
pre-energy plus ΔE is nonnegative, and `adjust_thermal_energy` (used by nitryl
formation) always yields a nonnegative temperature because it clamps at zero.
The unconditional claim over `react_once` fails: a plain composition whose
energy absorption exceeds the mixture's thermal energy goes negative. -/
theorem temperature_nonneg_of_energy_nonneg :
    (∀ (C : Constants) (gm : GasMixture) (d : GasMixtureWithEnergy),
        0 ≤ gm.get_energy C + d.energy → 0 ≤ (gm.compose C d).temperature) ∧
      ∀ (C : Constants) (gm : GasMixture) (de : ℚ),
        0 ≤ (gm.adjust_thermal_energy C de).temperature := by
  constructor
  · intro C gm d h
    show 0 ≤ if 0 < _ then (gm.get_energy C + d.energy) / _ else 0
    split
    · exact div_nonneg h (le_of_lt (by assumption))
    · exact le_refl 0
  · intro C gm de
    show 0 ≤ if 0 < _ then max 0 ((gm.get_energy C + de) / _) else (0 : ℚ)
    split
    · exact le_max_left 0 _
    · exact le_refl 0

/-- C4 witness: the amended nonnegativity at a concrete mixture, zero delta
and a concrete energy subtraction. -/
theorem temperature_nonneg_of_energy_nonneg_check :
    0 ≤ (mNoble.compose testC ⟨fun _ => 0, 0⟩).temperature ∧
      0 ≤ (mNoble.adjust_thermal_energy testC (-1)).temperature :=
  ⟨temperature_nonneg_of_energy_nonneg.1 testC mNoble ⟨fun _ => 0, 0⟩
      (by norm_num [GasMixture.get_energy, GasMixture.heat_capacity, Gas.all, mNoble, testC]),
    temperature_nonneg_of_energy_nonneg.2 testC mNoble (-1)⟩

/-- C5: whenever `react_until_done` terminates with a result `f` (within any
iteration bound), `f` is an exact fixed point of `react_once`. -/
theorem react_until_done_fixed_point (C : Constants) :
    ∀ (fuel : Nat) (gm f : GasMixture),
      react_until_done C fuel gm = some f → react_once C f = f := by
  intro fuel
  induction fuel with
  | zero => intro gm f h; simp [react_until_done] at h
  | succ n ih =>
    intro gm f h
    rw [react_until_done] at h
    by_cases hc : gm = react_once C gm
    · rw [if_pos hc] at h
      have hf : react_once C gm = f := Option.some.inj h
      rw [← hf, ← hc]
      exact hc.symm
    · rw [if_neg hc] at h
      exact ih (react_once C gm) f h

/-- C5 witness: the fixed-point property extracted from a concrete terminating
run of `react_until_done`. -/
theorem react_until_done_fixed_point_check : react_once testC mQuench = mQuench := by
  have honce : react_once testC mQuench = mQuench := by
    rw [react_once, if_neg (by norm_num [verify_hnob, mQuench])]
  exact react_until_done_fixed_point testC 1 mQuench mQuench
    (by rw [react_until_done, honce, if_pos rfl])

/-- C6: `react_several(m, N)` is exactly the length-N sequence of iterates
`[react_once(m), react_once²(m), …, react_onceᴺ(m)]` — its first element is
`react_once m`, and each later element is `react_once` of its predecessor. -/
theorem react_several_iterates (C : Constants) :
    ∀ (times : Nat) (gm : GasMixture),
      react_several C gm times =
          (List.range times).map (fun k => (react_once C)^[k + 1] gm) ∧
        (react_several C gm times).length = times := by
  intro times
  induction times with
  | zero => intro gm; simp [react_several]
  | succ n ih =>
    intro gm
    have hmap : react_several C gm (n + 1) =
        (List.range (n + 1)).map fun k => (react_once C)^[k + 1] gm := by
      rw [react_several, (ih (react_once C gm)).1, List.range_succ_eq_map]
      simp only [List.map_cons, List.map_map, Function.iterate_one]
      refine congrArg₂ _ rfl ?_
      refine List.map_congr_left fun k _ => ?_
      simp [Function.comp, Function.iterate_succ_apply]
    exact ⟨hmap, by rw [hmap]; simp⟩

/-- C7: when fusion is active, it composes its computed `delta_mix` (which
subtracts FUSION_TRITIUM_MOLES_USED of H2 and adds the waste outputs) exactly
when `reaction_energy ≠ 0` or `instability ≤ FUSION_INSTABILITY_ENDOTHERMALITY`,
and in every other case returns the input mixture unchanged. -/
theorem fusion_applies_delta_iff (C : Constants) (gm : GasMixture) (h : fusion_active C gm) :
    ((fusion_reaction_energy C gm ≠ 0 ∨
        fusion_instability C gm ≤ C.FUSION_INSTABILITY_ENDOTHERMALITY) →
      fusion C gm = gm.compose C (fusion_delta_mix C gm)) ∧
    (¬ (fusion_reaction_energy C gm ≠ 0 ∨
        fusion_instability C gm ≤ C.FUSION_INSTABILITY_ENDOTHERMALITY) →
      fusion C gm = gm) := by
  rw [fusion, if_pos h]
  constructor
  · intro hc; rw [if_pos hc]
  · intro hc; rw [if_neg hc]

/-- C7 witness: the branch dichotomy at the concrete active mixture `mFus`. -/
theorem fusion_applies_delta_iff_check :
    ((fusion_reaction_energy testC mFus ≠ 0 ∨
        fusion_instability testC mFus ≤ testC.FUSION_INSTABILITY_ENDOTHERMALITY) →
      fusion testC mFus = mFus.compose testC (fusion_delta_mix testC mFus)) ∧
    (¬ (fusion_reaction_energy testC mFus ≠ 0 ∨
        fusion_instability testC mFus ≤ testC.FUSION_INSTABILITY_ENDOTHERMALITY) →
      fusion testC mFus = mFus) :=
  fusion_applies_delta_iff testC mFus
    ⟨by norm_num [mFus, testC], by norm_num [mFus, testC], by norm_num [mFus, testC],
      by norm_num [mFus, testC]⟩

/-- C9: a tick never changes the volume, and neither does any of the eight
individual reaction steps. -/
theorem react_once_preserves_volume (C : Constants) (gm : GasMixture) (h : WellFormed gm) :
    (react_once C gm).volume = gm.volume ∧
      (n2o_decomp C gm).volume = gm.volume ∧ (trit_fire C gm).volume = gm.volume ∧
      (plasma_fire C gm).volume = gm.volume ∧ (fusion C gm).volume = gm.volume ∧
      (nitryl_formation C gm).volume = gm.volume ∧ (bz_synth C gm).volume = gm.volume ∧
      (stimulum_synth C gm).volume = gm.volume ∧ (hnob_synth C gm).volume = gm.volume := by
  refine ⟨?_, n2o_decomp_volume C gm, trit_fire_volume C gm, plasma_fire_volume C gm,
    fusion_volume C gm, nitryl_formation_volume C gm, bz_synth_volume C gm,
    stimulum_synth_volume C gm, hnob_synth_volume C gm⟩
  rw [react_once]; split
  · rw [hnob_synth_volume, stimulum_synth_volume, bz_synth_volume, nitryl_formation_volume,
      fusion_volume, plasma_fire_volume, trit_fire_volume, n2o_decomp_volume]
  · rfl

/-- C9 witness: volume preservation at the concrete well-formed mixture
`mNoble`. -/
theorem react_once_preserves_volume_check :
    (react_once testC mNoble).volume = mNoble.volume := by
  have hwf : WellFormed mNoble := by
    refine ⟨fun s => ?_, by norm_num [mNoble], by norm_num [mNoble]⟩
    cases s <;> norm_num [mNoble]
  exact (react_once_preserves_volume testC mNoble hwf).1

/-- C10: when hyper-noblium synthesis is active (`N2 ≥ 10`, `H2 ≥ 5`,
`t ≥ 5·10⁶`), the amount formed is at least 0.15 mol, so the step strictly
increases the HNb mole count. -/
theorem hnob_synth_strictly_increases (C : Constants) (gm : GasMixture)
    (h : hnob_synth_active gm) :
    0.15 ≤ hnob_nob_formed gm ∧
      gm.gases Gas.HNb < (hnob_synth C gm).gases Gas.HNb := by
  obtain ⟨hn2, hh2, -⟩ := id h
  have hnob : (0.15 : ℚ) ≤ hnob_nob_formed gm := by
    refine le_min (le_min (by nlinarith) (by linarith)) (by linarith)
  refine ⟨hnob, ?_⟩
  rw [hnob_synth, if_pos h]
  show gm.gases Gas.HNb < max 0 (gm.gases Gas.HNb + hnob_nob_formed gm)
  have : gm.gases Gas.HNb < gm.gases Gas.HNb + hnob_nob_formed gm := by linarith
  exact lt_of_lt_of_le this (le_max_right 0 _)

/-- C10 witness: the strict HNb increase at the concrete active mixture
`mNoble`, where exactly 0.15 mol is formed. -/
theorem hnob_synth_strictly_increases_check :
    0.15 ≤ hnob_nob_formed mNoble ∧
      mNoble.gases Gas.HNb < (hnob_synth testC mNoble).gases Gas.HNb :=
  hnob_synth_strictly_increases testC mNoble
    ⟨by norm_num [mNoble], by norm_num [mNoble], by norm_num [mNoble]⟩
